import Mathlib

/-!
Shallow embedding of `src/backend/auth.py`, a minimal authentication module:
an in-memory OTP store (`OTPStore`), signed-token issuance/validation
(`create_access_token` / `verify_token` over the `jose` JWT library), and a
resolver from a bearer token to a user record (`get_current_user`).

Modelling conventions:
* Time is an integer count of seconds; `datetime.utcnow()` becomes an explicit
  `now : Int` argument threaded to each operation, and `timedelta` values are
  integer second counts.
* Randomness (`random.choices(string.digits, k=6)`) becomes an explicit
  `draws : Fin 6 → Fin 10` argument selecting indices into the digit alphabet.
* The Python dict backing the OTP store is a total function
  `String → Option OTPRecord`; claims-payload dicts are association lists with
  dict-style first-key lookup and in-place update.
* The HMAC-SHA256 signature computed by `jwt.encode` is modelled by a
  deterministic tag `signMac secret message` over a serialisation of the
  payload; `jwt.decode` recomputes and compares the tag.  A presented token is
  either structurally well-formed (a payload plus a signature segment) or
  malformed; `jose` raises `JWTError` on the latter, which `verify_token`
  turns into `None`.
* `SECRET_KEY = os.getenv("SECRET_KEY", ...)` is modelled as a function of the
  process environment.
-/

/-- One stored OTP record: the Python dict value
`self.store[email] = ⟨"otp": otp, "expires": datetime⟩`. -/
structure OTPRecord where
  otp : String
  expires : Int
deriving DecidableEq, Repr

/-- The backing map of `OTPStore`: `self.store`, keyed by email. -/
abbrev OTPStoreMap := String → Option OTPRecord

/-- `string.digits` from the Python standard library. -/
def digitsAlphabet : List Char := "0123456789".data

theorem digitsAlphabet_length : digitsAlphabet.length = 10 := rfl

/-- `OTPStore.generate_otp`: draws 6 characters from `string.digits`, stores
the record with `expires = now + 5 minutes` (overwriting any prior record for
`email`), and returns the code. -/
def generate_otp (store : OTPStoreMap) (draws : Fin 6 → Fin 10) (email : String)
    (now : Int) : String × OTPStoreMap :=
  let otp : String :=
    ⟨(List.finRange 6).map fun i =>
      digitsAlphabet.get (Fin.cast digitsAlphabet_length.symm (draws i))⟩
  (otp, fun e => if e = email then some { otp := otp, expires := now + 5 * 60 } else store e)

/-- `OTPStore.verify_otp`: `False` if no record; if expired (`now > expires`),
delete and return `False`; if the code matches, delete and return `True`;
otherwise leave the record and return `False`. -/
def verify_otp (store : OTPStoreMap) (email otp : String) (now : Int) :
    Bool × OTPStoreMap :=
  match store email with
  | none => (false, store)
  | some stored =>
    if now > stored.expires then
      (false, fun e => if e = email then none else store e)
    else if stored.otp = otp then
      (true, fun e => if e = email then none else store e)
    else
      (false, store)

/-- A scalar JSON claim value (the payloads used here carry strings and the
integer `exp` timestamp). -/
inductive ClaimVal where
  | str (s : String)
  | int (n : Int)
deriving DecidableEq, Repr

/-- A claims payload: a Python dict from claim names to values, modelled as an
association list with first-match lookup. -/
abbrev Claims := List (String × ClaimVal)

/-- Dict lookup `d.get(key)`: first entry with the given key. -/
def dictGet : Claims → String → Option ClaimVal
  | [], _ => none
  | (k, v) :: rest, key => if k = key then some v else dictGet rest key

/-- Dict update `d.update(⟨key: val⟩)`: replace the entry for `key` if
present, else append it. -/
def dictUpdate : Claims → String → ClaimVal → Claims
  | [], key, val => [(key, val)]
  | (k, v) :: rest, key, val =>
    if k = key then (k, val) :: rest else (k, v) :: dictUpdate rest key val

/-- Python truthiness of a claim value (`if not user_id:`): the empty string
and the integer 0 are falsy. -/
def truthy : ClaimVal → Bool
  | .str s => !s.isEmpty
  | .int n => n != 0

/-- Deterministic serialisation of a claim value (the JSON encoding step of
`jwt.encode`). -/
def ClaimVal.serialize : ClaimVal → String
  | .str s => "s:" ++ s
  | .int n => "i:" ++ toString n

/-- Deterministic serialisation of a claims payload. -/
def serializeClaims (c : Claims) : String :=
  String.intercalate ";" (c.map fun kv => kv.fst ++ "=" ++ kv.snd.serialize)

/-- Model of the HMAC-SHA256 tag over the serialised payload, keyed by the
process secret: deterministic in `(secret, message)`. -/
def signMac (secret message : String) : String :=
  "MAC[" ++ secret ++ "|" ++ message ++ "]"

/-- A well-formed signed token: the decoded payload segment together with the
signature segment. -/
structure Token where
  payload : Claims
  sig : String
deriving DecidableEq, Repr

/-- A presented token string: either well-formed (decodable header/payload and
a signature segment) or structurally malformed. -/
inductive TokenStr where
  | wellFormed (t : Token)
  | malformed (raw : String)
deriving DecidableEq, Repr

/-- The hardcoded fallback of `os.getenv("SECRET_KEY", ...)`. -/
def SECRET_KEY_DEFAULT : String := "your-secret-key-change-in-production"

/-- `SECRET_KEY = os.getenv("SECRET_KEY", "your-secret-key-change-in-production")`
as a function of the process environment. -/
def SECRET_KEY (env : String → Option String) : String :=
  (env "SECRET_KEY").getD SECRET_KEY_DEFAULT

/-- `ACCESS_TOKEN_EXPIRE_MINUTES = 60 * 24 * 7  # 7 days`. -/
def ACCESS_TOKEN_EXPIRE_MINUTES : Int := 60 * 24 * 7

/-- `create_access_token(data, expires_delta)`: copy the claims, compute the
expiry, inject it under `"exp"`, and sign.  Note the Python guard is
`if expires_delta:`, and `timedelta(0)` is falsy, so a present-but-zero delta
falls through to the 7-day default exactly like `None`. -/
def create_access_token (secret : String) (now : Int) (data : Claims)
    (expires_delta : Option Int) : Token :=
  let expire : Int :=
    match expires_delta with
    | some d => if d = 0 then now + ACCESS_TOKEN_EXPIRE_MINUTES * 60 else now + d
    | none => now + ACCESS_TOKEN_EXPIRE_MINUTES * 60
  let to_encode := dictUpdate data "exp" (ClaimVal.int expire)
  { payload := to_encode, sig := signMac secret (serializeClaims to_encode) }

/-- `verify_token(token)`: `jwt.decode` checks the signature against
`SECRET_KEY` and validates the `exp` claim (expired iff `exp < now`; a
non-integer `exp` raises `JWTClaimsError`, a missing `exp` is accepted); any
`JWTError` is caught and `None` returned. -/
def verify_token (secret : String) (now : Int) (token : TokenStr) : Option Claims :=
  match token with
  | .malformed _ => none
  | .wellFormed t =>
    if t.sig = signMac secret (serializeClaims t.payload) then
      match dictGet t.payload "exp" with
      | some (ClaimVal.int e) => if e < now then none else some t.payload
      | some (ClaimVal.str _) => none
      | none => some t.payload
    else
      none

/-- `get_current_user(db, token)`: validate the token, extract `"sub"`,
reject falsy subjects (`if not user_id:`), then perform the single read-only
lookup `db.users.find_one(⟨"_id": user_id⟩)`.  The second component logs the
datastore queries actually performed, in order. -/
def get_current_user {U : Type} (db : ClaimVal → Option U) (secret : String)
    (now : Int) (token : TokenStr) : Option U × List ClaimVal :=
  match verify_token secret now token with
  | none => (none, [])
  | some payload =>
    match dictGet payload "sub" with
    | none => (none, [])
    | some user_id =>
      if truthy user_id then (db user_id, [user_id]) else (none, [])

/-- Replace the character at index `i` of a string: a single-character
mutation of a token's signature segment. -/
def mutateAt (s : String) (i : Nat) (c : Char) : String := ⟨s.data.set i c⟩

/-! ### Helper lemmas -/

theorem mutateAt_ne (s : String) (i : Nat) (c : Char) (hi : i < s.length)
    (hc : c ≠ s.data.get ⟨i, hi⟩) : mutateAt s i c ≠ s := by
  intro h
  apply hc
  have hdata : s.data.set i c = s.data := congrArg String.data h
  have h1 : (s.data.set i c)[i]? = some c := List.getElem?_set_self hi
  rw [hdata] at h1
  have h2 : s.data[i]? = some (s.data.get ⟨i, hi⟩) := by
    rw [List.get_eq_getElem]
    exact List.getElem?_eq_getElem hi
  rw [h1] at h2
  exact Option.some.inj h2

theorem dictGet_dictUpdate_self (c : Claims) (key : String) (v : ClaimVal) :
    dictGet (dictUpdate c key v) key = some v := by
  induction c with
  | nil => simp [dictGet, dictUpdate]
  | cons kv rest ih =>
    obtain ⟨k0, v0⟩ := kv
    by_cases h0 : k0 = key
    · simp [dictUpdate, dictGet, h0]
    · simp [dictUpdate, dictGet, h0, ih]

theorem dictGet_dictUpdate_ne (c : Claims) (key k : String) (v : ClaimVal)
    (h : k ≠ key) : dictGet (dictUpdate c key v) k = dictGet c k := by
  induction c with
  | nil =>
    have hk : ¬ key = k := fun he => h he.symm
    simp [dictGet, dictUpdate, hk]
  | cons kv rest ih =>
    obtain ⟨k0, v0⟩ := kv
    by_cases h0 : k0 = key
    · subst h0
      have hk : ¬ k0 = k := fun he => h he.symm
      simp [dictUpdate, dictGet, hk]
    · simp only [dictUpdate, if_neg h0, dictGet]
      by_cases h1 : k0 = k
      · simp [h1]
      · simp [h1, ih]

/-- `create_access_token` with a present, nonzero delta puts
`exp = now + delta` in the payload and signs that payload. -/
theorem create_access_token_nonzero (secret : String) (now : Int) (data : Claims)
    (d : Int) (hd : d ≠ 0) :
    create_access_token secret now data (some d) =
      { payload := dictUpdate data "exp" (ClaimVal.int (now + d)),
        sig := signMac secret
          (serializeClaims (dictUpdate data "exp" (ClaimVal.int (now + d)))) } := by
  simp [create_access_token, hd]

/-- Validating a freshly issued token (nonzero non-expired delta) returns the
payload with the injected expiry. -/
theorem verify_create_some (secret : String) (now : Int) (data : Claims)
    (d : Int) (hd : d ≠ 0) (hnn : ¬ now + d < now) :
    verify_token secret now (.wellFormed (create_access_token secret now data (some d)))
      = some (dictUpdate data "exp" (ClaimVal.int (now + d))) := by
  rw [create_access_token_nonzero secret now data d hd]
  simp [verify_token, dictGet_dictUpdate_self, hnn]

theorem verify_otp_miss (store : OTPStoreMap) (email otp : String) (now : Int)
    (h : store email = none) : verify_otp store email otp now = (false, store) := by
  simp [verify_otp, h]

theorem verify_otp_hit (store : OTPStoreMap) (email otp : String) (now : Int)
    (rec : OTPRecord) (h : store email = some rec) (hexp : ¬ now > rec.expires)
    (hcode : rec.otp = otp) :
    verify_otp store email otp now = (true, fun e => if e = email then none else store e) := by
  simp [verify_otp, h, hexp, hcode]

theorem verify_otp_expired (store : OTPStoreMap) (email otp : String) (now : Int)
    (rec : OTPRecord) (h : store email = some rec) (hexp : now > rec.expires) :
    verify_otp store email otp now = (false, fun e => if e = email then none else store e) := by
  simp [verify_otp, h, hexp]

theorem verify_otp_wrong (store : OTPStoreMap) (email otp : String) (now : Int)
    (rec : OTPRecord) (h : store email = some rec) (hexp : ¬ now > rec.expires)
    (hcode : rec.otp ≠ otp) :
    verify_otp store email otp now = (false, store) := by
  simp [verify_otp, h, hexp, hcode]

theorem generate_otp_store_self (store : OTPStoreMap) (draws : Fin 6 → Fin 10)
    (email : String) (now : Int) :
    (generate_otp store draws email now).2 email =
      some { otp := (generate_otp store draws email now).1, expires := now + 5 * 60 } := by
  simp [generate_otp]

/-! ### Claims -/

/-- C1: after `generate_otp` returns code `c` for an account, an immediate
`verify_otp` with `c` returns `true` and removes the record, and a second
immediate `verify_otp` with `c` returns `false`. -/
theorem otp_single_use (s : OTPStoreMap) (draws : Fin 6 → Fin 10) (email : String)
    (now : Int) :
    (verify_otp (generate_otp s draws email now).2 email
        (generate_otp s draws email now).1 now).1 = true ∧
    (verify_otp (generate_otp s draws email now).2 email
        (generate_otp s draws email now).1 now).2 email = none ∧
    (verify_otp (verify_otp (generate_otp s draws email now).2 email
        (generate_otp s draws email now).1 now).2 email
        (generate_otp s draws email now).1 now).1 = false := by
  have hstore := generate_otp_store_self s draws email now
  have hexp : ¬ now > now + 5 * 60 := by omega
  have h1 := verify_otp_hit (generate_otp s draws email now).2 email
    (generate_otp s draws email now).1 now _ hstore hexp rfl
  refine ⟨by rw [h1], by rw [h1]; simp, ?_⟩
  rw [h1]
  have h2 : ((fun e => if e = email then none else (generate_otp s draws email now).2 e) :
      OTPStoreMap) email = none := by simp
  rw [verify_otp_miss _ _ _ now h2]

/-- C2: with a code generated at `t0`, a verify strictly after the 5-minute
expiry returns `false` even for the stored code, deletes the record, and every
subsequent verify for that account also returns `false`. -/
theorem otp_expiry_consumes (s : OTPStoreMap) (draws : Fin 6 → Fin 10)
    (email : String) (t0 t1 : Int) (h : t1 > t0 + 5 * 60) :
    (verify_otp (generate_otp s draws email t0).2 email
        (generate_otp s draws email t0).1 t1).1 = false ∧
    (verify_otp (generate_otp s draws email t0).2 email
        (generate_otp s draws email t0).1 t1).2 email = none ∧
    ∀ code2 t2,
      (verify_otp (verify_otp (generate_otp s draws email t0).2 email
          (generate_otp s draws email t0).1 t1).2 email code2 t2).1 = false := by
  have hstore := generate_otp_store_self s draws email t0
  have h1 := verify_otp_expired (generate_otp s draws email t0).2 email
    (generate_otp s draws email t0).1 t1 _ hstore h
  refine ⟨by rw [h1], by rw [h1]; simp, ?_⟩
  intro code2 t2
  rw [h1]
  have h2 : ((fun e => if e = email then none else (generate_otp s draws email t0).2 e) :
      OTPStoreMap) email = none := by simp
  rw [verify_otp_miss _ _ _ t2 h2]

/-- C2 witness: concrete run with generation at time 0 and verification at
time 301 seconds. -/
theorem otp_expiry_consumes_witness :
    ((301 : Int) > 0 + 5 * 60) ∧
    (verify_otp (generate_otp (fun _ => none) (fun _ => (0 : Fin 10)) "a@x.com" 0).2
        "a@x.com" (generate_otp (fun _ => none) (fun _ => (0 : Fin 10)) "a@x.com" 0).1 301).1
      = false ∧
    (verify_otp (verify_otp (generate_otp (fun _ => none) (fun _ => (0 : Fin 10)) "a@x.com" 0).2
        "a@x.com" (generate_otp (fun _ => none) (fun _ => (0 : Fin 10)) "a@x.com" 0).1 301).2
        "a@x.com" "000000" 302).1 = false :=
  ⟨by decide,
   (otp_expiry_consumes (fun _ => none) (fun _ => (0 : Fin 10)) "a@x.com" 0 301 (by decide)).1,
   (otp_expiry_consumes (fun _ => none) (fun _ => (0 : Fin 10)) "a@x.com" 0 301 (by decide)).2.2
     "000000" 302⟩

/-- C3: a verify with a wrong code on an unexpired record returns `false` and
leaves the whole store unchanged, so a later correct-code verify before expiry
still returns `true`. -/
theorem otp_wrong_code_retry (s : OTPStoreMap) (email wrong : String)
    (rec : OTPRecord) (t1 t2 : Int) (hs : s email = some rec)
    (hne : rec.otp ≠ wrong) (h1 : ¬ t1 > rec.expires) (h2 : ¬ t2 > rec.expires) :
    verify_otp s email wrong t1 = (false, s) ∧
    (verify_otp s email rec.otp t2).1 = true := by
  refine ⟨verify_otp_wrong s email wrong t1 rec hs h1 hne, ?_⟩
  rw [verify_otp_hit s email rec.otp t2 rec hs h2 rfl]

/-- C3 witness: concrete store holding code `"482913"` expiring at time 300;
wrong code `"000000"` at time 0, then the correct code at time 10. -/
theorem otp_wrong_code_retry_witness :
    ((fun e => if e = "a@x.com" then some ⟨"482913", 300⟩ else none : OTPStoreMap)
        "a@x.com" = some ⟨"482913", 300⟩) ∧
    verify_otp (fun e => if e = "a@x.com" then some ⟨"482913", 300⟩ else none)
        "a@x.com" "000000" 0
      = (false, fun e => if e = "a@x.com" then some ⟨"482913", 300⟩ else none) ∧
    (verify_otp (fun e => if e = "a@x.com" then some ⟨"482913", 300⟩ else none)
        "a@x.com" "482913" 10).1 = true :=
  ⟨by decide,
   (otp_wrong_code_retry (fun e => if e = "a@x.com" then some ⟨"482913", 300⟩ else none)
      "a@x.com" "000000" ⟨"482913", 300⟩ 0 10 (by decide) (by decide) (by decide)
      (by decide)).1,
   (otp_wrong_code_retry (fun e => if e = "a@x.com" then some ⟨"482913", 300⟩ else none)
      "a@x.com" "000000" ⟨"482913", 300⟩ 0 10 (by decide) (by decide) (by decide)
      (by decide)).2⟩

/-- C8: `generate_otp` returns a 6-character all-ASCII-digit string, stores a
record for the account with `expires = now + 5 minutes` and exactly the
returned code, replacing any prior record, and leaves other accounts
untouched. -/
theorem generate_otp_contract (s : OTPStoreMap) (draws : Fin 6 → Fin 10)
    (email : String) (now : Int) :
    (generate_otp s draws email now).1.length = 6 ∧
    (generate_otp s draws email now).1.data.all Char.isDigit = true ∧
    (generate_otp s draws email now).2 email =
      some { otp := (generate_otp s draws email now).1, expires := now + 5 * 60 } ∧
    ∀ e, e ≠ email → (generate_otp s draws email now).2 e = s e := by
  refine ⟨?_, ?_, generate_otp_store_self s draws email now, ?_⟩
  · simp [generate_otp, String.length]
  · have hdig : ∀ j : Fin 10,
        (digitsAlphabet.get (Fin.cast digitsAlphabet_length.symm j)).isDigit = true := by
      decide
    have hall : ((List.finRange 6).map fun i =>
        digitsAlphabet.get (Fin.cast digitsAlphabet_length.symm (draws i))).all
          Char.isDigit = true := by
      rw [List.all_eq_true]
      intro c hc
      obtain ⟨i, -, rfl⟩ := List.mem_map.mp hc
      exact hdig (draws i)
    exact hall
  · intro e he
    simp [generate_otp, he]

/-- C8 witness: concrete generation over the empty store at time 7 with all
draws equal to 3, checked at the generated account and at another account. -/
theorem generate_otp_contract_witness :
    (generate_otp (fun _ => none) (fun _ => (3 : Fin 10)) "a@x.com" 7).1.length = 6 ∧
    (generate_otp (fun _ => none) (fun _ => (3 : Fin 10)) "a@x.com" 7).1.data.all
      Char.isDigit = true ∧
    (generate_otp (fun _ => none) (fun _ => (3 : Fin 10)) "a@x.com" 7).2 "a@x.com" =
      some { otp := (generate_otp (fun _ => none) (fun _ => (3 : Fin 10)) "a@x.com" 7).1,
             expires := 7 + 5 * 60 } ∧
    (generate_otp (fun _ => none) (fun _ => (3 : Fin 10)) "a@x.com" 7).2 "b@y.com" =
      (fun _ => none : OTPStoreMap) "b@y.com" :=
  ⟨(generate_otp_contract (fun _ => none) (fun _ => (3 : Fin 10)) "a@x.com" 7).1,
   (generate_otp_contract (fun _ => none) (fun _ => (3 : Fin 10)) "a@x.com" 7).2.1,
   (generate_otp_contract (fun _ => none) (fun _ => (3 : Fin 10)) "a@x.com" 7).2.2.1,
   (generate_otp_contract (fun _ => none) (fun _ => (3 : Fin 10)) "a@x.com" 7).2.2.2
     "b@y.com" (by decide)⟩

/-- C4: validating a token issued with positive ttl, immediately and with the
same secret, yields a claims mapping that keeps every original key/value of
the input claims except `"exp"`, which is overwritten with the
service-computed expiry `now + ttl`. -/
theorem token_roundtrip (secret : String) (now : Int) (data : Claims) (ttl : Int)
    (hp : 0 < ttl) :
    verify_token secret now (.wellFormed (create_access_token secret now data (some ttl)))
      = some (dictUpdate data "exp" (ClaimVal.int (now + ttl))) ∧
    (∀ k, k ≠ "exp" →
      dictGet (dictUpdate data "exp" (ClaimVal.int (now + ttl))) k = dictGet data k) ∧
    dictGet (dictUpdate data "exp" (ClaimVal.int (now + ttl))) "exp"
      = some (ClaimVal.int (now + ttl)) := by
  refine ⟨verify_create_some secret now data ttl (by omega) (by omega),
    fun k hk => dictGet_dictUpdate_ne data "exp" k _ hk,
    dictGet_dictUpdate_self data "exp" _⟩

/-- C4 witness: round-trip of the payload `[("sub", "alice")]` with ttl 60 at
time 0. -/
theorem token_roundtrip_witness :
    ((0 : Int) < 60) ∧
    verify_token "k" 0 (.wellFormed
        (create_access_token "k" 0 [("sub", ClaimVal.str "alice")] (some 60)))
      = some (dictUpdate [("sub", ClaimVal.str "alice")] "exp" (ClaimVal.int (0 + 60))) ∧
    dictGet (dictUpdate [("sub", ClaimVal.str "alice")] "exp" (ClaimVal.int (0 + 60)))
        "sub" = dictGet [("sub", ClaimVal.str "alice")] "sub" ∧
    dictGet (dictUpdate [("sub", ClaimVal.str "alice")] "exp" (ClaimVal.int (0 + 60)))
        "exp" = some (ClaimVal.int (0 + 60)) :=
  ⟨by decide,
   (token_roundtrip "k" 0 [("sub", ClaimVal.str "alice")] 60 (by decide)).1,
   (token_roundtrip "k" 0 [("sub", ClaimVal.str "alice")] 60 (by decide)).2.1 "sub"
     (by decide),
   (token_roundtrip "k" 0 [("sub", ClaimVal.str "alice")] 60 (by decide)).2.2⟩

/-- C7 counterexample: issuing with an explicitly supplied zero ttl at time 0
yields expiry claim `now + 7 days = 604800`, not `now + 0 = 0` as the claim
requires for every explicitly supplied ttl, because Python's
`if expires_delta:` treats `timedelta(0)` as falsy. -/
theorem issue_zero_ttl_cex :
    dictGet (create_access_token "k" 0 [] (some 0)).payload "exp"
      = some (ClaimVal.int 604800) ∧
    dictGet (create_access_token "k" 0 [] (some 0)).payload "exp"
      ≠ some (ClaimVal.int (0 + 0)) := by
  exact ⟨by decide, by decide⟩

/-- C7 amended: for every explicitly supplied nonzero ttl the expiry claim is
`now + ttl` (overwriting any caller-supplied `"exp"`); the 7-day default is
used when no ttl is supplied, and also when the supplied ttl is zero (a falsy
`timedelta`). -/
theorem issue_expiry_formula (secret : String) (now : Int) (data : Claims)
    (d : Int) (hd : d ≠ 0) :
    dictGet (create_access_token secret now data (some d)).payload "exp"
      = some (ClaimVal.int (now + d)) ∧
    dictGet (create_access_token secret now data none).payload "exp"
      = some (ClaimVal.int (now + ACCESS_TOKEN_EXPIRE_MINUTES * 60)) ∧
    dictGet (create_access_token secret now data (some 0)).payload "exp"
      = some (ClaimVal.int (now + ACCESS_TOKEN_EXPIRE_MINUTES * 60)) := by
  refine ⟨?_, ?_, ?_⟩ <;>
    simp [create_access_token, hd, dictGet_dictUpdate_self]

/-- C7 amended witness: ttl 60 at time 5 over a payload that already carries
an `"exp"` entry, which gets overwritten. -/
theorem issue_expiry_formula_witness :
    ((60 : Int) ≠ 0) ∧
    dictGet (create_access_token "k" 5 [("exp", ClaimVal.int 99)] (some 60)).payload
        "exp" = some (ClaimVal.int (5 + 60)) ∧
    dictGet (create_access_token "k" 5 [("exp", ClaimVal.int 99)] none).payload
        "exp" = some (ClaimVal.int (5 + ACCESS_TOKEN_EXPIRE_MINUTES * 60)) :=
  ⟨by decide,
   (issue_expiry_formula "k" 5 [("exp", ClaimVal.int 99)] 60 (by decide)).1,
   (issue_expiry_formula "k" 5 [("exp", ClaimVal.int 99)] 60 (by decide)).2.1⟩

/-- C5: validation returns `none` uniformly on each failure mode: (a) a
malformed token; (b) a well-formed token whose signature segment has the
character at any index mutated to a different character; (c) a token issued
with a negative ttl, validated at issuance time — the same absent result in
all three cases. -/
theorem verify_uniform_failure (secret : String) (now : Int) (raw : String)
    (data data2 : Claims) (ttl ttl2 : Int) (i : Nat) (c : Char)
    (hi : i < (create_access_token secret now data (some ttl)).sig.length)
    (hc : c ≠ (create_access_token secret now data (some ttl)).sig.data.get ⟨i, hi⟩)
    (hneg : ttl2 < 0) :
    verify_token secret now (.malformed raw) = none ∧
    verify_token secret now (.wellFormed
      { payload := (create_access_token secret now data (some ttl)).payload,
        sig := mutateAt (create_access_token secret now data (some ttl)).sig i c })
      = none ∧
    verify_token secret now (.wellFormed (create_access_token secret now data2 (some ttl2)))
      = none := by
  refine ⟨rfl, ?_, ?_⟩
  · have hne := mutateAt_ne (create_access_token secret now data (some ttl)).sig i c hi hc
    have hcond : mutateAt (create_access_token secret now data (some ttl)).sig i c
        ≠ signMac secret
            (serializeClaims (create_access_token secret now data (some ttl)).payload) :=
      hne
    simp [verify_token, hcond]
  · have hne2 : ttl2 ≠ 0 := by omega
    rw [create_access_token_nonzero secret now data2 ttl2 hne2]
    have hlt : now + ttl2 < now := by omega
    simp [verify_token, dictGet_dictUpdate_self, hlt]

/-- C5 witness: secret `"k"`, empty claims, ttl 60; the signature's first
character is mutated to `'X'`; and a token with ttl −1 validated at time 0. -/
theorem verify_uniform_failure_witness :
    verify_token "k" 0 (.malformed "garbage") = none ∧
    verify_token "k" 0 (.wellFormed
      { payload := (create_access_token "k" 0 [] (some 60)).payload,
        sig := mutateAt (create_access_token "k" 0 [] (some 60)).sig 0 'X' }) = none ∧
    verify_token "k" 0 (.wellFormed (create_access_token "k" 0 [] (some (-1)))) = none :=
  verify_uniform_failure "k" 0 "garbage" [] [] 60 (-1) 0 'X' (by decide) (by decide)
    (by decide)

/-- C9: with no `SECRET_KEY` in the process environment, the module resolves
the secret to the hardcoded placeholder (no startup failure is modelled or
needed: the fallback is total), and token issuance followed by validation
under that default secret proceeds normally. -/
theorem default_secret_fallback (env : String → Option String) (now : Int)
    (data : Claims) (ttl : Int) (henv : env "SECRET_KEY" = none) (hp : 0 < ttl) :
    SECRET_KEY env = "your-secret-key-change-in-production" ∧
    verify_token (SECRET_KEY env) now
        (.wellFormed (create_access_token (SECRET_KEY env) now data (some ttl)))
      = some (dictUpdate data "exp" (ClaimVal.int (now + ttl))) := by
  refine ⟨by simp [SECRET_KEY, henv, SECRET_KEY_DEFAULT], ?_⟩
  exact verify_create_some (SECRET_KEY env) now data ttl (by omega) (by omega)

/-- C9 witness: empty environment, payload `[("sub", "alice")]`, ttl 60 at
time 0. -/
theorem default_secret_fallback_witness :
    SECRET_KEY (fun _ => none) = "your-secret-key-change-in-production" ∧
    verify_token (SECRET_KEY (fun _ => none)) 0
        (.wellFormed (create_access_token (SECRET_KEY (fun _ => none)) 0
          [("sub", ClaimVal.str "alice")] (some 60)))
      = some (dictUpdate [("sub", ClaimVal.str "alice")] "exp" (ClaimVal.int (0 + 60))) :=
  ⟨(default_secret_fallback (fun _ => none) 0 [("sub", ClaimVal.str "alice")] 60
      rfl (by decide)).1,
   (default_secret_fallback (fun _ => none) 0 [("sub", ClaimVal.str "alice")] 60
      rfl (by decide)).2⟩

/-- C6 counterexample: a token that validates, whose payload carries a
subject claim (value `""`), and a store that returns a record for that
subject, yet the resolver returns nothing and performs no store lookup —
contradicting the claim's "otherwise returns exactly the record the store
returns, performing exactly one lookup". -/
theorem resolve_falsy_subject_cex :
    verify_token "k" 0 (.wellFormed
        (create_access_token "k" 0 [("sub", ClaimVal.str "")] (some 60)))
      = some [("sub", ClaimVal.str ""), ("exp", ClaimVal.int 60)] ∧
    dictGet [("sub", ClaimVal.str ""), ("exp", ClaimVal.int 60)] "sub"
      = some (ClaimVal.str "") ∧
    (fun _ => some "user-record" : ClaimVal → Option String) (ClaimVal.str "")
      = some "user-record" ∧
    get_current_user (fun _ => some "user-record") "k" 0
        (.wellFormed (create_access_token "k" 0 [("sub", ClaimVal.str "")] (some 60)))
      = (none, []) :=
  ⟨rfl, rfl, rfl, rfl⟩

/-- C6 amended: the resolver returns nothing when validation fails, when the
subject claim is absent, and also when the subject claim is present but falsy
(each with no store lookup); when the subject claim is truthy it returns
exactly the store's result for that subject, having performed exactly that one
read-only lookup (the query log is `[v]`). -/
theorem resolve_contract {U : Type} (db : ClaimVal → Option U) (secret : String)
    (now : Int) (token : TokenStr) :
    (verify_token secret now token = none →
      get_current_user db secret now token = (none, [])) ∧
    (∀ P, verify_token secret now token = some P → dictGet P "sub" = none →
      get_current_user db secret now token = (none, [])) ∧
    (∀ P v, verify_token secret now token = some P → dictGet P "sub" = some v →
      truthy v = false → get_current_user db secret now token = (none, [])) ∧
    (∀ P v, verify_token secret now token = some P → dictGet P "sub" = some v →
      truthy v = true → get_current_user db secret now token = (db v, [v])) := by
  refine ⟨fun h => by simp [get_current_user, h],
    fun P h1 h2 => by simp [get_current_user, h1, h2],
    fun P v h1 h2 h3 => by simp [get_current_user, h1, h2, h3],
    fun P v h1 h2 h3 => by simp [get_current_user, h1, h2, h3]⟩

/-- C6 amended witness: a malformed token resolves to nothing with no lookup,
and a valid token with truthy subject `"alice"` resolves to the store's record
with exactly one lookup. -/
theorem resolve_contract_witness :
    get_current_user (fun _ => some "user-record" : ClaimVal → Option String) "k" 0
        (.malformed "x") = (none, []) ∧
    get_current_user (fun _ => some "user-record" : ClaimVal → Option String) "k" 0
        (.wellFormed (create_access_token "k" 0 [("sub", ClaimVal.str "alice")] (some 60)))
      = (some "user-record", [ClaimVal.str "alice"]) :=
  ⟨(resolve_contract (fun _ => some "user-record") "k" 0 (.malformed "x")).1 rfl,
   (resolve_contract (fun _ => some "user-record") "k" 0
      (.wellFormed (create_access_token "k" 0 [("sub", ClaimVal.str "alice")] (some 60)))).2.2.2
     [("sub", ClaimVal.str "alice"), ("exp", ClaimVal.int 60)] (ClaimVal.str "alice")
     rfl rfl rfl⟩

/-- C10: a token that validates but whose subject claim is falsy (for example
the empty string) resolves to nothing with an empty query log — no store
lookup is performed, for every store, exactly as if the subject were
missing. -/
theorem falsy_subject_no_lookup {U : Type} (db : ClaimVal → Option U)
    (secret : String) (now : Int) (token : TokenStr) (P : Claims) (v : ClaimVal)
    (hv : verify_token secret now token = some P)
    (hsub : dictGet P "sub" = some v) (hf : truthy v = false) :
    get_current_user db secret now token = (none, []) := by
  simp [get_current_user, hv, hsub, hf]

/-- C10 witness: a valid token with subject `""` against a store that would
return a record for every query. -/
theorem falsy_subject_no_lookup_witness :
    get_current_user (fun _ => some "user-record" : ClaimVal → Option String) "k" 0
        (.wellFormed (create_access_token "k" 0 [("sub", ClaimVal.str "")] (some 60)))
      = (none, []) :=
  falsy_subject_no_lookup (fun _ => some "user-record") "k" 0
    (.wellFormed (create_access_token "k" 0 [("sub", ClaimVal.str "")] (some 60)))
    [("sub", ClaimVal.str ""), ("exp", ClaimVal.int 60)] (ClaimVal.str "") rfl rfl rfl
